import Mathlib

/-!
Verification of the `aiohere` client library (an asynchronous Python client for
the HERE weather API) against its natural-language specification.

The development shallowly embeds the request/response pipeline of
`aiohere/aiohere.py`:

* decoded JSON bodies become the inductive `Json` (a JSON null and a Python
  `None` are identified, exactly as `json.loads` does);
* the error taxonomy of `exceptions.py` becomes the inductive `HereErr`;
* exceptions that are *not* part of the taxonomy (Python `KeyError`,
  `AttributeError`, JSON decode failures) become `PyError`;
* an HTTP response is a record of status, `Content-Type` header value, raw
  body text and the body's JSON-decode result;
* the coroutine `AioHere.request` becomes the pure outcome function
  `request` / `handleResponse`, and `AioHere.weather_for_coordinates`
  becomes `weatherForCoordinates` (parametrised over the transport);
* the session-lifecycle methods (`__init__` lazy creation, `close`) become a
  state-transition model `ClientState` / `close`.
-/

namespace AioHere

/-- A decoded JSON value, as returned by the JSON decoder.  `null` doubles as
the Python `None`, which is what `json.loads` produces for a JSON null and
what `dict.get` produces for an absent key. -/
inductive Json where
  | null
  | bool (b : Bool)
  | num (n : Int)
  | str (s : String)
  | arr (elems : List Json)
  | obj (members : List (String × Json))
deriving Inhabited, Repr

/-- Key lookup in a decoded JSON object, mirroring a Python `dict`: the first
binding of the key (Python dicts cannot repeat keys). -/
def fieldsGet : List (String × Json) → String → Option Json
  | [], _ => none
  | (k, v) :: rest, key => if k = key then some v else fieldsGet rest key

/-- Python `==` between a decoded JSON value and a string literal: true exactly
when the value is that string (numbers, null, etc. never equal a `str`). -/
def pyEqStr (v : Json) (s : String) : Bool :=
  match v with
  | .str t => t = s
  | _ => false

/-- Modelled from the spec: the error taxonomy of `aiohere/exceptions.py`,
which is absent from the sources (only its import site is).  Four kinds share
the common base `HereError`; each carries the arguments the raising site
passes.  `generic` is the base/catch-all `HereError` itself, whose argument
list is heterogeneous at the call sites (a message string, a
possibly-`None` JSON field, or a status plus a structured payload), so it
carries a list of `Json` values. -/
inductive HereErr where
  | timeout (msg : String)
  | unauthorized (desc : Json)
  | invalidRequest (msg : Json)
  | generic (args : List Json)
deriving Inhabited, Repr

/-- A Python exception that is not one of the four `HereErr` kinds and hence
escapes the library's error taxonomy. -/
inductive PyError where
  | keyError (key : String)
  | attributeError (attr : String)
  | jsonDecodeError
deriving Inhabited, Repr, DecidableEq

/-- The `Type`/`Message` branch of `AioHere._get_error_from_response`: reached
when there is no `error` field or its value is not `"Unauthorized"`.
`json_data.get` yields `None` for an absent key, hence `getD .null`. -/
def typeMessageBranch (m : List (String × Json)) : HereErr :=
  let errorType := (fieldsGet m "Type").getD .null
  let errorMessage := (fieldsGet m "Message").getD .null
  if pyEqStr errorType "Invalid Request" then .invalidRequest errorMessage
  else .generic [errorMessage]

/-- `AioHere._get_error_from_response`.  The `Except` codomain records that
`json_data["error_description"]` is a raw subscript: when the `error` field
equals `"Unauthorized"` but `error_description` is absent, Python raises
`KeyError` instead of returning a `HereError`. -/
def getErrorFromResponse (m : List (String × Json)) : Except PyError HereErr :=
  match fieldsGet m "error" with
  | some v =>
    if pyEqStr v "Unauthorized" then
      match fieldsGet m "error_description" with
      | some d => .ok (.unauthorized d)
      | none => .error (.keyError "error_description")
    else .ok (typeMessageBranch m)
  | none => .ok (typeMessageBranch m)

/-- The `WeatherProductType` enumeration of `aiohere/enum.py`. -/
inductive WeatherProductType where
  | observation
  | forecast_7days
  | forecast_7days_simple
  | forecast_hourly
  | forecast_astronomy
  | alerts
  | nws_alerts
deriving Inhabited, Repr, DecidableEq, Fintype

/-- The enum's string value, which is also its `__str__` form
(`"%s" % self._value_`). -/
def WeatherProductType.value : WeatherProductType → String
  | .observation => "observation"
  | .forecast_7days => "forecast_7days"
  | .forecast_7days_simple => "forecast_7days_simple"
  | .forecast_hourly => "forecast_hourly"
  | .forecast_astronomy => "forecast_astronomy"
  | .alerts => "alerts"
  | .nws_alerts => "nws_alerts"

/-- `AioHere._product_node`: the if/elif chain from product to the root key of
a successful response; the trailing `else` catches `nws_alerts`. -/
def productNode (product : WeatherProductType) : String :=
  if product = .observation then "observations"
  else if product = .forecast_7days then "forecasts"
  else if product = .forecast_7days_simple then "dailyForecasts"
  else if product = .forecast_hourly then "hourlyForecasts"
  else if product = .forecast_astronomy then "astronomy"
  else if product = .alerts then "alerts"
  else "nwsAlerts"

/-- A character-list prefix test (`needle` leads `haystack`), used to build
the Python substring operator `in`. -/
def leadsWith : List Char → List Char → Bool
  | _, [] => true
  | [], _ :: _ => false
  | a :: as, b :: bs => (a = b) && leadsWith as bs

/-- Containment of `needle` in some suffix of `haystack`. -/
def containsSeq (needle : List Char) : List Char → Bool
  | [] => leadsWith [] needle
  | c :: rest => leadsWith (c :: rest) needle || containsSeq needle rest

/-- Python's `needle in haystack` on strings: substring containment. -/
def strContains (haystack needle : String) : Bool :=
  containsSeq needle.data haystack.data

/-- An HTTP response as `request` observes it: the status, the value of the
`Content-Type` header (`headers.get("Content-Type", "")`, so `""` when the
header is absent), the raw body text, and the body's JSON-decode result
(`none` when the body is not well-formed JSON, where `response.json()`
raises). -/
structure Response where
  status : Nat
  contentType : String
  bodyText : String
  bodyJson : Option Json
deriving Inhabited, Repr

/-- The outcome of one of the library's coroutines as its caller observes it:
a normal return, a raised `HereError` of the taxonomy, or a raised Python
exception outside the taxonomy. -/
inductive Outcome (α : Type) where
  | ok (v : α)
  | hereError (e : HereErr)
  | pyError (e : PyError)
deriving Inhabited, Repr

/-- Raising `self._get_error_from_response(json_data)`: the mapper's
`HereError` result is raised; if the mapper itself raises (the `KeyError`
case), that exception propagates instead. -/
def raiseFromFields (m : List (String × Json)) : Outcome Json :=
  match getErrorFromResponse m with
  | .ok e => .hereError e
  | .error pe => .pyError pe

/-- The status/content-type policy of `AioHere.request` once a response has
arrived (the code from `if response.status // 100 in [4, 5]` on).  The error
branch first reads the full body, then dispatches on an *exact*
`Content-Type` match; the success branch dispatches on a *substring* match.
A 204 returns Python `None`, modelled as `Option.none`.  A decoded error
body that is not a JSON object makes the mapper's attribute accesses raise,
hence the `.pyError` rows. -/
def handleResponse (r : Response) : Outcome (Option Json) :=
  if r.status / 100 = 4 ∨ r.status / 100 = 5 then
    if r.contentType = "application/json" then
      match r.bodyJson with
      | some (.obj m) =>
        match getErrorFromResponse m with
        | .ok e => .hereError e
        | .error pe => .pyError pe
      | some _ => .pyError (.attributeError "get")
      | none => .pyError .jsonDecodeError
    else .hereError (.generic [.num r.status, .obj [("message", .str r.bodyText)]])
  else if r.status = 204 then
    .ok none
  else if strContains r.contentType "application/json" then
    match r.bodyJson with
    | some j => .ok (some j)
    | none => .pyError .jsonDecodeError
  else
    .ok (some (.obj [("message", .str r.bodyText)]))

/-- How the single HTTP exchange inside `AioHere.request` ends: a response,
an `asyncio.TimeoutError`, or an `aiohttp.ClientError`/`socket.gaierror`. -/
inductive TransportResult where
  | success (r : Response)
  | timeoutErr
  | clientError
deriving Inhabited, Repr

/-- `AioHere.request`: the two `except` clauses re-raise as taxonomy errors
with fixed messages; a response goes to the status/content-type policy. -/
def request (t : TransportResult) : Outcome (Option Json) :=
  match t with
  | .timeoutErr =>
    .hereError (.timeout "Timeout occurred while connecting to the here API.")
  | .clientError =>
    .hereError (.generic [.str "Error occurred while communicating with the here API."])
  | .success r => handleResponse r

/-- The query-parameter mapping `weather_for_coordinates` builds.  `latStr`
and `lonStr` stand for `str(latitude)` and `str(longitude)`, Python's
default numeric-to-string rendering of the two floats; `str(product)` is the
enum's value string. -/
def weatherParams (apiKey : String) (product : WeatherProductType)
    (oneObservation metric : Bool) (latStr lonStr : String) :
    List (String × String) :=
  [("apiKey", apiKey),
   ("product", product.value),
   ("oneobservation", if oneObservation then "true" else "false"),
   ("metric", if metric then "true" else "false"),
   ("latitude", latStr),
   ("longitude", lonStr)]

/-- The tail of `weather_for_coordinates` after `request` returns
`json_data`: `json_data.get(self._product_node(product))` is compared with
`None`.  When `request` returned Python `None` (a 204) the `.get` attribute
access itself raises; when the key is absent *or* bound to a JSON null, the
mapper's result is raised; otherwise the whole payload is returned
unchanged. -/
def weatherPostProcess (product : WeatherProductType) (jsonData : Option Json) :
    Outcome Json :=
  match jsonData with
  | none => .pyError (.attributeError "get")
  | some (.obj m) =>
    match fieldsGet m (productNode product) with
    | some .null => raiseFromFields m
    | some _ => .ok (.obj m)
    | none => raiseFromFields m
  | some _ => .pyError (.attributeError "get")

/-- `AioHere.weather_for_coordinates`, parametrised over the transport: it
builds `weatherParams`, hands them to `request` (here abstracted as the
function `doRequest` from parameters to a request outcome), propagates a
raised error, and post-processes a normal return. -/
def weatherForCoordinates (doRequest : List (String × String) → Outcome (Option Json))
    (apiKey : String) (product : WeatherProductType)
    (oneObservation metric : Bool) (latStr lonStr : String) : Outcome Json :=
  match doRequest (weatherParams apiKey product oneObservation metric latStr lonStr) with
  | .ok jsonData => weatherPostProcess product jsonData
  | .hereError e => .hereError e
  | .pyError pe => .pyError pe

/-- The observable state of an `aiohttp.ClientSession`: whether its
underlying connector has been released.  `ClientSession.close()` releases
the connector only on the first call, so closing is modelled as an
idempotent transition that reports whether this call actually released the
resource. -/
structure SessionState where
  closed : Bool
deriving Inhabited, Repr, DecidableEq

/-- `ClientSession.close()`: releases the connector if it is still open;
the boolean is true exactly when this call performed the release. -/
def sessionClose (s : SessionState) : SessionState × Bool :=
  if s.closed then (s, false) else ({ closed := true }, true)

/-- The session-related fields of an `AioHere` instance: `_session` and the
ownership flag `_close_session`. -/
structure ClientState where
  session : Option SessionState
  closeSession : Bool
deriving Inhabited, Repr, DecidableEq

/-- `AioHere.__init__`: stores the caller's session (or `None`) and sets
`_close_session = False`. -/
def initClient (session : Option SessionState) : ClientState :=
  { session := session, closeSession := false }

/-- The lazy-creation step at the top of `request`: if `_session is None`,
create a fresh session and mark it internally owned. -/
def ensureSession (c : ClientState) : ClientState :=
  match c.session with
  | none => { session := some { closed := false }, closeSession := true }
  | some _ => c

/-- `AioHere.close`: `if self._session and self._close_session:
await self._session.close()` (a live session object is always truthy).  The
boolean reports whether the underlying resource was released by this
call. -/
def close (c : ClientState) : ClientState × Bool :=
  match c.session with
  | some s =>
    if c.closeSession then
      let (s', released) := sessionClose s
      ({ c with session := some s' }, released)
    else (c, false)
  | none => (c, false)

/-! ### Theorems for the claims -/

/-- Claim C4 (confirmed): the product-to-root-key lookup is total on the
seven `WeatherProductType` variants (its Lean codomain is `String`, not
`Option String`, so no variant maps to `None`), returns a non-empty string
for every variant, and realises exactly the mapping of the spec's table. -/
theorem productNode_total_and_exact :
    (∀ p : WeatherProductType, productNode p ≠ "") ∧
    productNode .observation = "observations" ∧
    productNode .forecast_7days = "forecasts" ∧
    productNode .forecast_7days_simple = "dailyForecasts" ∧
    productNode .forecast_hourly = "hourlyForecasts" ∧
    productNode .forecast_astronomy = "astronomy" ∧
    productNode .alerts = "alerts" ∧
    productNode .nws_alerts = "nwsAlerts" := by
  decide

/-- Claim C6 (confirmed): on HTTP status 204 `request` returns the empty
result (Python `None`), whatever the `Content-Type` header, body text and
body decode result are. -/
theorem request_status_204_empty (ct body : String) (bj : Option Json) :
    handleResponse { status := 204, contentType := ct, bodyText := body, bodyJson := bj } =
      .ok none := by
  simp [handleResponse]

/-- Claim C8 (confirmed): `close` respects session ownership and is
idempotent.  On a client built with a caller-supplied session, `close`
changes nothing and never releases the session — even after `request`'s
lazy-creation step has run.  On a client that never created a session,
`close` is a no-op.  On a client whose session was lazily created, the
first `close` releases the underlying resource (the `true` flag) exactly
once, and for every client state whatsoever, a second `close` changes
nothing and releases nothing. -/
theorem close_ownership_idempotent :
    (∀ s : SessionState, close (initClient (some s)) = (initClient (some s), false)) ∧
    (∀ s : SessionState,
      close (ensureSession (initClient (some s))) =
        (ensureSession (initClient (some s)), false)) ∧
    close (initClient none) = (initClient none, false) ∧
    close (ensureSession (initClient none)) =
      ({ session := some { closed := true }, closeSession := true }, true) ∧
    (∀ c : ClientState, close (close c).1 = ((close c).1, false)) := by
  refine ⟨fun s => rfl, fun s => rfl, rfl, rfl, ?_⟩
  rintro ⟨sess, flag⟩
  cases sess with
  | none => rfl
  | some s =>
    obtain ⟨b⟩ := s
    cases flag
    · rfl
    · cases b <;> rfl

/-- Claim C9 (corrected): the timeout message the code raises is
"Timeout occurred while connecting to the here API." — not the claim's
"Timeout occurred while connecting to the API". -/
theorem request_timeout_message_counterexample :
    request .timeoutErr =
      .hereError (.timeout "Timeout occurred while connecting to the here API.") ∧
    "Timeout occurred while connecting to the here API." ≠
      "Timeout occurred while connecting to the API" := by
  exact ⟨rfl, by decide⟩

/-- Claim C9 (amended): a timeout fails with the timeout kind carrying
exactly "Timeout occurred while connecting to the here API.", and a
transport/connection failure fails with the generic kind carrying exactly
"Error occurred while communicating with the here API.". -/
theorem request_exception_messages :
    request .timeoutErr =
      .hereError (.timeout "Timeout occurred while connecting to the here API.") ∧
    request .clientError =
      .hereError (.generic [.str "Error occurred while communicating with the here API."]) :=
  ⟨rfl, rfl⟩

/-- Claim C1 (corrected): on the mapping with `error = "Unauthorized"` and no
`error_description` field, the mapper does not return an error kind — the
raw subscript `json_data["error_description"]` raises `KeyError`. -/
theorem getErrorFromResponse_missing_description_raises :
    getErrorFromResponse [("error", .str "Unauthorized")] =
      .error (.keyError "error_description") := by
  rfl

/-- Claim C1 (amended): the mapper returns one of the error kinds and raises
nothing for every decoded JSON mapping, *except* when the `error` field
equals the string `"Unauthorized"` while `error_description` is absent, in
which case it raises `KeyError`; when both `error` and `Type` are absent it
degrades to a generic error whose message is the `Message` field or null. -/
theorem getErrorFromResponse_total_except_missing_description
    (m : List (String × Json)) :
    (pyEqStr ((fieldsGet m "error").getD .null) "Unauthorized" = true →
      fieldsGet m "error_description" = none →
      getErrorFromResponse m = .error (.keyError "error_description")) ∧
    (¬(pyEqStr ((fieldsGet m "error").getD .null) "Unauthorized" = true ∧
        fieldsGet m "error_description" = none) →
      ∃ e, getErrorFromResponse m = .ok e) ∧
    (fieldsGet m "error" = none → fieldsGet m "Type" = none →
      getErrorFromResponse m = .ok (.generic [(fieldsGet m "Message").getD .null])) := by
  refine ⟨?_, ?_, ?_⟩
  · intro hEq hNone
    cases he : fieldsGet m "error" with
    | none => rw [he] at hEq; simp [pyEqStr] at hEq
    | some v =>
      rw [he] at hEq
      simp only [Option.getD_some] at hEq
      simp [getErrorFromResponse, he, hEq, hNone]
  · intro hNot
    cases he : fieldsGet m "error" with
    | none => exact ⟨typeMessageBranch m, by simp [getErrorFromResponse, he]⟩
    | some v =>
      cases hpe : pyEqStr v "Unauthorized" with
      | false => exact ⟨typeMessageBranch m, by simp [getErrorFromResponse, he, hpe]⟩
      | true =>
        have hd : fieldsGet m "error_description" ≠ none := by
          intro hdn
          exact hNot ⟨by rw [he]; simpa using hpe, hdn⟩
        cases hdd : fieldsGet m "error_description" with
        | none => exact absurd hdd hd
        | some d => exact ⟨.unauthorized d, by simp [getErrorFromResponse, he, hpe, hdd]⟩
  · intro he ht
    simp [getErrorFromResponse, he, typeMessageBranch, ht, pyEqStr]

/-- Claim C1 witness: on the empty mapping (all expected fields absent) the
mapper returns the generic kind with a null message. -/
theorem getErrorFromResponse_total_witness :
    getErrorFromResponse [] = .ok (.generic [Json.null]) :=
  (getErrorFromResponse_total_except_missing_description []).2.2 rfl rfl

/-- Claim C2 (confirmed): for a response with status in `[400, 600)`,
`request` raises: on an exact `Content-Type: application/json` it decodes
the body and raises whatever the error mapper produces; on any other
content type it raises a generic error carrying the status and the raw body
text as `{status, message}`; and no such response ever returns normally. -/
theorem request_error_status_policy (r : Response)
    (h4 : 400 ≤ r.status) (h6 : r.status < 600) :
    (∀ m, r.contentType = "application/json" → r.bodyJson = some (.obj m) →
      handleResponse r =
        (match getErrorFromResponse m with
         | .ok e => .hereError e
         | .error pe => .pyError pe)) ∧
    (r.contentType ≠ "application/json" →
      handleResponse r =
        .hereError (.generic [.num r.status, .obj [("message", .str r.bodyText)]])) ∧
    (∀ v, handleResponse r ≠ .ok v) := by
  have hdiv : r.status / 100 = 4 ∨ r.status / 100 = 5 := by omega
  refine ⟨?_, ?_, ?_⟩
  · intro m hct hbody
    unfold handleResponse
    rw [if_pos hdiv, if_pos hct, hbody]
  · intro hct
    unfold handleResponse
    rw [if_pos hdiv, if_neg hct]
  · intro v h
    unfold handleResponse at h
    rw [if_pos hdiv] at h
    split at h
    · split at h
      · split at h
        · exact Outcome.noConfusion h
        · exact Outcome.noConfusion h
      · exact Outcome.noConfusion h
      · exact Outcome.noConfusion h
    · exact Outcome.noConfusion h

/-- Claim C2 witness: a 500 with a non-JSON content type and body
`"internal error"` raises the generic `{status, message}` error. -/
theorem request_error_status_policy_witness :
    handleResponse
        { status := 500, contentType := "text/plain",
          bodyText := "internal error", bodyJson := none } =
      .hereError (.generic [.num 500, .obj [("message", .str "internal error")]]) :=
  (request_error_status_policy
    { status := 500, contentType := "text/plain",
      bodyText := "internal error", bodyJson := none }
    (by norm_num) (by norm_num)).2.1 (by decide)

/-- Claim C3 (corrected): on a 200 payload whose expected root key is
*present* but bound to a JSON null (`{"observations": null}` for product
`observation`), the code does not return the payload — the check is
`.get(key) is not None`, so it raises the mapper's result instead. -/
theorem weather_root_key_null_counterexample :
    weatherPostProcess .observation (some (.obj [("observations", Json.null)])) =
      .hereError (.generic [Json.null]) ∧
    weatherPostProcess .observation (some (.obj [("observations", Json.null)])) ≠
      .ok (.obj [("observations", Json.null)]) := by
  refine ⟨rfl, fun h => ?_⟩
  rw [show weatherPostProcess .observation (some (.obj [("observations", Json.null)])) =
      .hereError (.generic [Json.null]) from rfl] at h
  exact Outcome.noConfusion h

/-- Claim C3 (amended): `weather_for_coordinates` returns the decoded payload
unchanged exactly when the product's root key is present *with a non-null
value*; when the key is absent or null it raises the error mapper's result,
which for a payload with no recognizable error shape is the generic kind
with a null/absent message. -/
theorem weather_root_key_check (product : WeatherProductType)
    (m : List (String × Json)) :
    (∀ v, fieldsGet m (productNode product) = some v → v ≠ Json.null →
      weatherPostProcess product (some (.obj m)) = .ok (.obj m)) ∧
    (fieldsGet m (productNode product) = none ∨
        fieldsGet m (productNode product) = some Json.null →
      weatherPostProcess product (some (.obj m)) = raiseFromFields m) ∧
    (fieldsGet m (productNode product) = none → fieldsGet m "error" = none →
      fieldsGet m "Type" = none →
      weatherPostProcess product (some (.obj m)) =
        .hereError (.generic [(fieldsGet m "Message").getD Json.null])) := by
  refine ⟨?_, ?_, ?_⟩
  · intro v hv hnn
    cases v <;> first
      | exact absurd rfl hnn
      | simp [weatherPostProcess, hv]
  · rintro (h | h) <;> simp [weatherPostProcess, h]
  · intro hnode herr htype
    simp [weatherPostProcess, hnode, raiseFromFields, getErrorFromResponse, herr,
      typeMessageBranch, htype, pyEqStr]

/-- Claim C3 witness: product `observation` with payload `{"foo": 1}` (no
`observations` key, no recognizable error shape) raises the generic kind
with a null message. -/
theorem weather_root_key_check_witness :
    weatherPostProcess .observation (some (.obj [("foo", Json.num 1)])) =
      .hereError (.generic [Json.null]) :=
  (weather_root_key_check .observation [("foo", Json.num 1)]).2.2 rfl rfl rfl

/-- Claim C5 (confirmed): the parameter mapping has exactly the six keys
`apiKey`, `product`, `oneobservation`, `metric`, `latitude`, `longitude`,
bound to the stored credential verbatim, the enum's string form, the
literal strings `"true"`/`"false"` for the two booleans, and the
stringified coordinates; and `weather_for_coordinates` consults the
transport only on exactly this mapping. -/
theorem weather_params_exact (apiKey : String) (product : WeatherProductType)
    (oneObservation metric : Bool) (latStr lonStr : String) :
    (weatherParams apiKey product oneObservation metric latStr lonStr).map Prod.fst =
      ["apiKey", "product", "oneobservation", "metric", "latitude", "longitude"] ∧
    (weatherParams apiKey product oneObservation metric latStr lonStr).lookup "apiKey" =
      some apiKey ∧
    (weatherParams apiKey product oneObservation metric latStr lonStr).lookup "product" =
      some product.value ∧
    (weatherParams apiKey product oneObservation metric latStr lonStr).lookup
        "oneobservation" = some (if oneObservation then "true" else "false") ∧
    (weatherParams apiKey product oneObservation metric latStr lonStr).lookup "metric" =
      some (if metric then "true" else "false") ∧
    (weatherParams apiKey product oneObservation metric latStr lonStr).lookup "latitude" =
      some latStr ∧
    (weatherParams apiKey product oneObservation metric latStr lonStr).lookup "longitude" =
      some lonStr ∧
    (∀ req req' : List (String × String) → Outcome (Option Json),
      req (weatherParams apiKey product oneObservation metric latStr lonStr) =
        req' (weatherParams apiKey product oneObservation metric latStr lonStr) →
      weatherForCoordinates req apiKey product oneObservation metric latStr lonStr =
        weatherForCoordinates req' apiKey product oneObservation metric latStr lonStr) := by
  refine ⟨rfl, ?_, ?_, ?_, ?_, ?_, ?_, ?_⟩
  · simp [weatherParams, List.lookup]
  · simp [weatherParams, List.lookup]
  · simp [weatherParams, List.lookup]
  · simp [weatherParams, List.lookup]
  · simp [weatherParams, List.lookup]
  · simp [weatherParams, List.lookup]
  · intro req req' h
    unfold weatherForCoordinates
    rw [h]

/-- Claim C5 witness: at concrete arguments the `metric` key carries the
literal string `"false"`, and two transports that agree on the built
parameter mapping yield the same call outcome. -/
theorem weather_params_exact_witness :
    (weatherParams "k" .alerts true false "1.5" "2.5").lookup "metric" = some "false" ∧
    weatherForCoordinates (fun _ => Outcome.ok none) "k" .alerts true false "1.5" "2.5" =
      weatherForCoordinates
        (fun ps => if ps = weatherParams "k" .alerts true false "1.5" "2.5"
          then Outcome.ok none else Outcome.pyError .jsonDecodeError)
        "k" .alerts true false "1.5" "2.5" :=
  ⟨(weather_params_exact "k" .alerts true false "1.5" "2.5").2.2.2.2.1,
   (weather_params_exact "k" .alerts true false "1.5" "2.5").2.2.2.2.2.2.2
     (fun _ => Outcome.ok none)
     (fun ps => if ps = weatherParams "k" .alerts true false "1.5" "2.5"
       then Outcome.ok none else Outcome.pyError .jsonDecodeError)
     (by simp)⟩

/-- Claim C7 (confirmed): for a non-error, non-204 response, when the
`Content-Type` header contains `application/json` as a substring `request`
returns the decoded JSON body, and otherwise it returns the raw body text
wrapped as `{message: ...}`. -/
theorem request_success_content_policy (r : Response)
    (hNotErr : ¬(400 ≤ r.status ∧ r.status < 600)) (h204 : r.status ≠ 204) :
    (∀ j, r.bodyJson = some j →
      strContains r.contentType "application/json" = true →
      handleResponse r = .ok (some j)) ∧
    (strContains r.contentType "application/json" = false →
      handleResponse r = .ok (some (.obj [("message", .str r.bodyText)]))) := by
  have hdiv : ¬(r.status / 100 = 4 ∨ r.status / 100 = 5) := by omega
  constructor
  · intro j hj hct
    unfold handleResponse
    rw [if_neg hdiv, if_neg h204, if_pos hct, hj]
  · intro hct
    unfold handleResponse
    rw [if_neg hdiv, if_neg h204, if_neg (by simp [hct])]

/-- Claim C7 witness: a 200 whose content type is
`application/json; charset=utf-8` (substring match, not exact) returns the
decoded body. -/
theorem request_success_content_policy_witness :
    handleResponse
        { status := 200, contentType := "application/json; charset=utf-8",
          bodyText := "x", bodyJson := some (.obj [("a", Json.num 1)]) } =
      .ok (some (.obj [("a", Json.num 1)])) :=
  (request_success_content_policy
    { status := 200, contentType := "application/json; charset=utf-8",
      bodyText := "x", bodyJson := some (.obj [("a", Json.num 1)]) }
    (by norm_num) (by norm_num)).1 (.obj [("a", Json.num 1)]) rfl (by decide)

/-- Claim C10 (confirmed): when the transport yields the empty result (the
204 path of `request` returns Python `None`), `weather_for_coordinates`
neither returns normally nor raises any taxonomy error: `None.get` raises
`AttributeError`, outside the four declared kinds. -/
theorem weather_on_empty_result_attribute_error
    (doRequest : List (String × String) → Outcome (Option Json))
    (apiKey : String) (product : WeatherProductType)
    (oneObservation metric : Bool) (latStr lonStr : String)
    (h : doRequest (weatherParams apiKey product oneObservation metric latStr lonStr) =
      .ok none) :
    weatherForCoordinates doRequest apiKey product oneObservation metric latStr lonStr =
      .pyError (.attributeError "get") ∧
    (∀ j, weatherForCoordinates doRequest apiKey product oneObservation metric latStr
      lonStr ≠ .ok j) ∧
    (∀ e, weatherForCoordinates doRequest apiKey product oneObservation metric latStr
      lonStr ≠ .hereError e) := by
  have key : weatherForCoordinates doRequest apiKey product oneObservation metric latStr
      lonStr = .pyError (.attributeError "get") := by
    unfold weatherForCoordinates
    rw [h]
    rfl
  exact ⟨key, fun j hj => Outcome.noConfusion (key.symm.trans hj),
    fun e he => Outcome.noConfusion (key.symm.trans he)⟩

/-- Claim C10 witness: a transport that always returns the empty result
makes `weather_for_coordinates` fail with the untyped attribute error. -/
theorem weather_on_empty_result_witness :
    weatherForCoordinates (fun _ => Outcome.ok none) "key" .observation true true
        "1.0" "2.0" =
      .pyError (.attributeError "get") :=
  (weather_on_empty_result_attribute_error (fun _ => Outcome.ok none) "key" .observation
    true true "1.0" "2.0" rfl).1

end AioHere
